import Mathlib

/-!
# go-sql-generator: column filtering, WHERE synthesis and procedure assembly

A shallow embedding of `main.go`.  Go's `int` action codes are integers, slices are
lists, and a loop that appends to a slice is a recursion that appends to an
accumulator.  The file system and the `text/template` engine behind
`generateStringFromFileTemplate` are a parameter of the model (`Env`); a run that the
source ends through `exitIfError` or `template.Must` is the value `none`.
-/

set_option autoImplicit false

namespace SqlGenerator

/-! ## Data model -/

/-- The action code `SELECT = iota` of the constant block. -/
def SELECT : Int := 0

/-- The action code `INSERT`. -/
def INSERT : Int := 1

/-- The action code `UPDATE`. -/
def UPDATE : Int := 2

/-- The action code `DELETE`. -/
def DELETE : Int := 3

/-- Column is the struct with description from DataBase. -/
structure Column where
  ColumnName : String
  ColumnType : String
  IsIdentifier : Bool
  ParameterName : String
  deriving DecidableEq

/-- Table is the struct with description from DataBase. -/
structure Table where
  Columns : List Column
  TableName : String
  deriving DecidableEq

/-- StoreProcedureStructure represents the store procedure; a field left out of a Go
composite literal holds its zero value. -/
structure StoreProcedureStructure where
  Action : Int := 0
  ParameterSection : String := ""
  Query : String := ""
  WhereCondition : String := ""
  deriving DecidableEq

/-! ## Column filter -/

/-- The loop of `filterColumns`: every column accepted by `filter` is appended to
`temp`, in the order of the range. -/
def filterColumnsLoop (filter : Column → Bool) : List Column → List Column → List Column
  | [], temp => temp
  | column :: rest, temp =>
      if filter column then filterColumnsLoop filter rest (temp ++ [column])
      else filterColumnsLoop filter rest temp

/-- The function `filterColumns`: starts from `make([]Column, 0)` and runs the loop. -/
def filterColumns (columns : List Column) (filter : Column → Bool) : List Column :=
  filterColumnsLoop filter columns []

/-- The function `filterColumnByAction`. -/
def filterColumnByAction (action : Int) (columns : List Column) : List Column :=
  if action = UPDATE ∨ action = INSERT then
    filterColumns columns (fun column => !column.IsIdentifier)
  else if action = DELETE then
    filterColumns columns (fun column => column.IsIdentifier)
  else columns

/-! ## Stored-procedure assembler -/

/-- The function `CreateStoreProcedureForAction`. -/
def CreateStoreProcedureForAction (action : Int) (query : String) (whereCondition : String) :
    StoreProcedureStructure :=
  if action = INSERT then
    { Query := query }
  else
    { Query := query, WhereCondition := whereCondition }

/-! ## Environment: files, templates, paths -/

/-- The outside world of `generateStringFromFileTemplate`: the files on disk, the
`text/template` engine and `filepath.Join`.  These live in Go's standard library and on
the disk of the run, so the model takes them as a parameter. -/
structure Env where
  /-- The call `ioutil.ReadFile`: the content of the file, `none` when the read fails and
  `exitIfError` ends the process. -/
  readFile : String → Option String
  /-- Parsing the template text and executing it on a `Table` model: the rendered text,
  `none` when `template.Must` panics on a text that does not parse. -/
  execute : String → Table → Option String
  /-- The call `filepath.Join` on its arguments. -/
  join : List String → String

/-- TemplateSettings is structure to define where template files are located. -/
structure TemplateSettings where
  Folder : String
  SelectTemplate : String
  InsertTemplate : String
  UpdateTemplate : String
  DeleteTemplate : String
  deriving DecidableEq

/-- GenerateOption is structure that control how the store procedure will be generated. -/
structure GenerateOption where
  Actions : List Int
  SQLServer : String
  StoreProcedureName : String
  ActionParameter : String
  Template : TemplateSettings
  deriving DecidableEq

/-- The method `getTemplateFileFor`: the `switch` leaves `template` at its zero value for
an action outside the enumeration. -/
def getTemplateFileFor (env : Env) (settings : TemplateSettings) (action : Int) : String :=
  let template :=
    if action = SELECT then settings.SelectTemplate
    else if action = INSERT then settings.InsertTemplate
    else if action = DELETE then settings.DeleteTemplate
    else if action = UPDATE then settings.UpdateTemplate
    else ""
  env.join [settings.Folder, template]

/-- The method `getParameterSectionTemplateFile`. -/
def getParameterSectionTemplateFile (env : Env) (settings : TemplateSettings)
    (driverName : String) : String :=
  env.join [settings.Folder, driverName, "parameterSection.tmpl"]

/-- The function `generateStringFromFileTemplate` on a `Table` model: read the file
(a failed read ends the process), then parse and execute the template.  The error value
the Go function returns is always `nil`, so the model has no second result. -/
def generateStringFromFileTemplate (env : Env) (templateFile : String) (model : Table) :
    Option String :=
  match env.readFile templateFile with
  | none => none
  | some tmpl => env.execute tmpl model

/-! ## WHERE-clause synthesis -/

/-- The template helper `minus` of `funcMap`. -/
def minus (a b : Int) : Int := a - b

/-- The `range $index, $val := .` action of the WHERE template, from position `index` on:
each element writes `(ColumnName = ParameterName OR ParameterName IS NULL)` to the buffer,
followed by ` AND ` when `ne $index $cnt` holds. -/
def whereTemplateRange (cnt : Int) : Int → List Column → String → String
  | _, [], buf => buf
  | index, val :: rest, buf =>
      let buf := buf ++ "(" ++ val.ColumnName ++ " = " ++ val.ParameterName ++ " OR "
        ++ val.ParameterName ++ " IS NULL)"
      let buf := if index ≠ cnt then buf ++ " AND " else buf
      whereTemplateRange cnt (index + 1) rest buf

/-- The call `generateStringFromTemplate` on the literal WHERE template of
`generateWhereCondition`, executed on the slice `dot`:
`$cnt := minus (len .) 1`, the text `WHERE (`, the range, the text `)`. -/
def generateStringFromTemplateWhere (dot : List Column) : String :=
  let cnt := minus (dot.length : Int) 1
  let buf := "WHERE ("
  let buf := whereTemplateRange cnt 0 dot buf
  buf ++ ")"

/-- The loop of `generateWhereCondition` that collects the identifier columns. -/
def idColumnsLoop : List Column → List Column → List Column
  | [], idColumns => idColumns
  | col :: rest, idColumns =>
      if col.IsIdentifier then idColumnsLoop rest (idColumns ++ [col])
      else idColumnsLoop rest idColumns

/-- The method `generateWhereCondition`; the receiver `option` is not read. -/
def generateWhereCondition (_option : GenerateOption) (table : Table) : String :=
  let idColumns := idColumnsLoop table.Columns []
  if idColumns.length = 0 then ""
  else generateStringFromTemplateWhere idColumns

/-! ## GenerateSQL -/

/-- The loop of `GenerateSQL` over the actions that remain, `i` being the index of the
first of them and `procedures` the slice filled so far.  A failed render ends the
process, and the run has no result. -/
def GenerateSQLLoop (env : Env) (settings : TemplateSettings) (table : Table)
    (option : GenerateOption) :
    List Int → Nat → List StoreProcedureStructure → Option (List StoreProcedureStructure)
  | [], _, procedures => some procedures
  | action :: rest, i, procedures =>
      let tableModel : Table :=
        { TableName := table.TableName, Columns := filterColumnByAction action table.Columns }
      match generateStringFromFileTemplate env (getTemplateFileFor env settings action)
          tableModel with
      | none => none
      | some query =>
        let tableModel := if action = UPDATE then table else tableModel
        let whereCondition := generateWhereCondition option tableModel
        match generateStringFromFileTemplate env
            (getParameterSectionTemplateFile env settings option.SQLServer) tableModel with
        | none => none
        | some parameterSection =>
          let sp := CreateStoreProcedureForAction action query whereCondition
          let sp := { sp with ParameterSection := parameterSection }
          let sp := { sp with Action := action }
          GenerateSQLLoop env settings table option rest (i + 1) (procedures.set i sp)

/-- GenerateSQL is function for creating stored procedures: the slice is made with one
zero-valued structure per action, then the loop fills it. -/
def GenerateSQL (env : Env) (settings : TemplateSettings) (table : Table)
    (option : GenerateOption) : Option (List StoreProcedureStructure) :=
  GenerateSQLLoop env settings table option option.Actions 0
    (List.replicate option.Actions.length {})

/-! ## Schema reader -/

/-- One row of the metadata query as `rows.Scan` delivers it: the column name, the base
type, the nullable `sql.NullInt64` maximum length and the primary-key flag. -/
structure Row where
  name : String
  typeName : String
  maxLength : Option Int
  isPrimary : Bool
  deriving DecidableEq

/-- The call `strconv.FormatInt(i, 10)` of Go's standard library: the decimal digits,
after a minus sign for a negative number. -/
def FormatInt (i : Int) : String :=
  if i < 0 then "-" ++ Nat.repr i.natAbs else Nat.repr i.natAbs

/-- The loop of `GetTableDescription` over the scanned rows. -/
def GetTableDescriptionLoop (provider : String → String) : List Row → List Column → List Column
  | [], result => result
  | row :: rest, result =>
      let typeName :=
        match row.maxLength with
        | some maxLength =>
            if maxLength = -1 then row.typeName ++ "(max)"
            else row.typeName ++ "(" ++ FormatInt maxLength ++ ")"
        | none => row.typeName
      let col : Column :=
        { ColumnName := row.name, ColumnType := typeName, IsIdentifier := row.isPrimary,
          ParameterName := provider row.name }
      GetTableDescriptionLoop provider rest (result ++ [col])

/-- GetTableDescription on the rows the metadata query returned for `table`. -/
def GetTableDescription (rows : List Row) (table : String) (provider : String → String) :
    Table :=
  { Columns := GetTableDescriptionLoop provider rows [], TableName := table }

/-! ## Notions used to state the properties -/

/-- The clause the WHERE template writes for one column. -/
def whereClause (c : Column) : String :=
  "(" ++ c.ColumnName ++ " = " ++ c.ParameterName ++ " OR " ++ c.ParameterName ++ " IS NULL)"

/-- The table the query body of `action` is rendered from: the first `tableModel` of the
loop body of `GenerateSQL`. -/
def queryModel (table : Table) (action : Int) : Table :=
  { TableName := table.TableName, Columns := filterColumnByAction action table.Columns }

/-- The table the WHERE condition and the parameter section of `action` are built from:
`tableModel` after the statement `if action == UPDATE`. -/
def sectionModel (table : Table) (action : Int) : Table :=
  if action = UPDATE then table else queryModel table action

/-- Both renders of the loop body of `GenerateSQL` for `action` succeed in `env`. -/
def Renders (env : Env) (settings : TemplateSettings) (table : Table) (option : GenerateOption)
    (action : Int) : Prop :=
  (generateStringFromFileTemplate env (getTemplateFileFor env settings action)
      (queryModel table action)).isSome = true
  ∧ (generateStringFromFileTemplate env
      (getParameterSectionTemplateFile env settings option.SQLServer)
      (sectionModel table action)).isSome = true

/-! ## A concrete run used to evaluate the model -/

/-- An in-memory world: every file exists and holds the text `cols`, executing a template
lists the column names of the model, each followed by a comma, and paths are joined
with a slash. -/
def listingEnv : Env where
  readFile := fun _ => some "cols"
  execute := fun _ model => some (String.join (model.Columns.map (fun c => c.ColumnName ++ ",")))
  join := fun parts => "/".intercalate parts

/-- The template settings of `main`. -/
def mainSettings : TemplateSettings :=
  { Folder := "templates", SelectTemplate := "select.tmpl", InsertTemplate := "insert.tmpl",
    UpdateTemplate := "update.tmpl", DeleteTemplate := "delete.tmpl" }

/-- The table `users`: the key `id` and the column `name`. -/
def usersTable : Table :=
  { TableName := "users",
    Columns :=
      [ { ColumnName := "id", ColumnType := "int", IsIdentifier := true, ParameterName := "@id" },
        { ColumnName := "name", ColumnType := "varchar(50)", IsIdentifier := false,
          ParameterName := "@name" } ] }

/-- The scanned row of the column `name` of `users`: a `varchar` of length 50. -/
def varcharRow : Row :=
  { name := "name", typeName := "varchar", maxLength := some 50, isPrimary := false }

/-- Options that request the given actions for the driver `mssql`. -/
def optionFor (actions : List Int) : GenerateOption :=
  { Actions := actions, SQLServer := "mssql", StoreProcedureName := "sp_users",
    ActionParameter := "@action", Template := mainSettings }

/-! ## Lemmas on the column filter -/

theorem filterColumnsLoop_eq (filter : Column → Bool) (columns temp : List Column) :
    filterColumnsLoop filter columns temp = temp ++ columns.filter filter := by
  induction columns generalizing temp with
  | nil => simp [filterColumnsLoop]
  | cons column rest ih =>
    by_cases h : filter column = true
    · simp [filterColumnsLoop, h, ih]
    · simp [filterColumnsLoop, h, ih]

theorem filterColumns_eq (columns : List Column) (filter : Column → Bool) :
    filterColumns columns filter = columns.filter filter := by
  simp [filterColumns, filterColumnsLoop_eq]

/-! ## Lemmas on the WHERE template -/

theorem intercalate_go_append (s x y : String) (l : List String) :
    String.intercalate.go (x ++ y) s l = x ++ String.intercalate.go y s l := by
  induction l generalizing y with
  | nil => simp [String.intercalate.go]
  | cons a l ih =>
    simp only [String.intercalate.go]
    rw [String.append_assoc x y s, String.append_assoc x (y ++ s) a, ih]

theorem intercalate_cons_cons (s a b : String) (l : List String) :
    s.intercalate (a :: b :: l) = a ++ s ++ s.intercalate (b :: l) := by
  simp only [String.intercalate, String.intercalate.go]
  rw [String.append_assoc a s b, intercalate_go_append, intercalate_go_append, String.append_assoc]

theorem intercalate_singleton (s a : String) : s.intercalate [a] = a := by
  simp [String.intercalate, String.intercalate.go]

theorem whereTemplateRange_eq (cnt : Int) (cols : List Column) (index : Int) (buf : String)
    (h : index + cols.length = cnt + 1) :
    whereTemplateRange cnt index cols buf
      = buf ++ " AND ".intercalate (cols.map whereClause) := by
  induction cols generalizing index buf with
  | nil => simp [whereTemplateRange, String.intercalate]
  | cons c rest ih =>
    cases rest with
    | nil =>
      have hc : index = cnt := by simpa using h
      simp [whereTemplateRange, hc, intercalate_singleton, whereClause, String.append_assoc]
    | cons r rs =>
      have hc : index ≠ cnt := by
        intro he
        simp only [List.length_cons, Nat.cast_add, Nat.cast_one] at h
        omega
      have hstep : index + 1 + ((r :: rs).length : Int) = cnt + 1 := by
        simp only [List.length_cons, Nat.cast_add, Nat.cast_one] at h ⊢
        omega
      rw [whereTemplateRange]
      simp only [hc, ne_eq, not_false_eq_true, if_true]
      have e : " AND ".intercalate (List.map whereClause (c :: r :: rs))
          = whereClause c ++ " AND " ++ " AND ".intercalate (List.map whereClause (r :: rs)) := by
        simp only [List.map_cons]
        exact intercalate_cons_cons _ _ _ _
      rw [ih (index + 1) _ hstep, e]
      simp [whereClause, String.append_assoc]

theorem idColumnsLoop_eq (cols idColumns : List Column) :
    idColumnsLoop cols idColumns = idColumns ++ cols.filter (fun c => c.IsIdentifier) := by
  induction cols generalizing idColumns with
  | nil => simp [idColumnsLoop]
  | cons col rest ih =>
    by_cases h : col.IsIdentifier = true
    · simp [idColumnsLoop, h, ih]
    · simp [idColumnsLoop, h, ih]

theorem generateWhereCondition_eq (option : GenerateOption) (table : Table) :
    generateWhereCondition option table =
      if table.Columns.filter (fun c => c.IsIdentifier) = [] then ""
      else "WHERE (" ++ " AND ".intercalate
        ((table.Columns.filter (fun c => c.IsIdentifier)).map whereClause) ++ ")" := by
  simp only [generateWhereCondition, idColumnsLoop_eq, List.nil_append, List.length_eq_zero]
  split
  · rfl
  · simp only [generateStringFromTemplateWhere, minus]
    rw [whereTemplateRange_eq]
    simp

/-! ## Lemmas on the loop of GenerateSQL -/

theorem GenerateSQLLoop_spec (env : Env) (settings : TemplateSettings) (table : Table)
    (option : GenerateOption) :
    ∀ (acts : List Int) (i : Nat) (procs : List StoreProcedureStructure),
      (∀ a ∈ acts, Renders env settings table option a) → i + acts.length ≤ procs.length →
      ∃ out, GenerateSQLLoop env settings table option acts i procs = some out
        ∧ out.length = procs.length
        ∧ (∀ j, j < i → out[j]? = procs[j]?)
        ∧ (∀ j a, acts[j]? = some a → ∃ query ps,
            generateStringFromFileTemplate env (getTemplateFileFor env settings a)
              (queryModel table a) = some query
            ∧ generateStringFromFileTemplate env
              (getParameterSectionTemplateFile env settings option.SQLServer)
              (sectionModel table a) = some ps
            ∧ out[i + j]? = some
                { Action := a, ParameterSection := ps, Query := query,
                  WhereCondition :=
                    if a = INSERT then ""
                    else generateWhereCondition option (sectionModel table a) }) := by
  intro acts
  induction acts with
  | nil =>
    intro i procs _ _
    exact ⟨procs, rfl, rfl, fun _ _ => rfl, fun j a h => by simp at h⟩
  | cons a rest ih =>
    intro i procs hr hlen
    obtain ⟨hq, hp⟩ := hr a (List.mem_cons_self _ _)
    obtain ⟨query, hquery⟩ := Option.isSome_iff_exists.mp hq
    obtain ⟨ps, hps⟩ := Option.isSome_iff_exists.mp hp
    have hi : i < procs.length := by
      simp only [List.length_cons] at hlen
      omega
    have hlen2 : i + 1 + rest.length ≤ (procs.set i
        { Action := a, ParameterSection := ps, Query := query,
          WhereCondition :=
            if a = INSERT then ""
            else generateWhereCondition option (sectionModel table a) }).length := by
      simp only [List.length_cons] at hlen
      simp only [List.length_set]
      omega
    obtain ⟨out, hout, hl, hlow, hact⟩ :=
      ih (i + 1) _ (fun b hb => hr b (List.mem_cons_of_mem _ hb)) hlen2
    refine ⟨out, ?_, ?_, ?_, ?_⟩
    · rw [GenerateSQLLoop]
      simp only [queryModel, sectionModel] at hquery hps
      simp only [hquery, hps]
      rw [← hout]
      congr 2
      by_cases hins : a = INSERT <;> simp [CreateStoreProcedureForAction, hins, sectionModel, queryModel]
    · rw [hl, List.length_set]
    · intro j hj
      rw [hlow j (by omega), List.getElem?_set_ne (by omega)]
    · intro j b hb
      cases j with
      | zero =>
        simp only [List.getElem?_cons_zero, Option.some.injEq] at hb
        subst hb
        refine ⟨query, ps, hquery, hps, ?_⟩
        rw [Nat.add_zero, hlow i (by omega), List.getElem?_set_self hi]
      | succ j =>
        simp only [List.getElem?_cons_succ] at hb
        obtain ⟨q2, p2, h1, h2, h3⟩ := hact j b hb
        refine ⟨q2, p2, h1, h2, ?_⟩
        rw [← h3]
        congr 1
        omega

theorem GenerateSQLLoop_renders (env : Env) (settings : TemplateSettings) (table : Table)
    (option : GenerateOption) :
    ∀ (acts : List Int) (i : Nat) (procs out : List StoreProcedureStructure),
      GenerateSQLLoop env settings table option acts i procs = some out →
      ∀ a ∈ acts, Renders env settings table option a := by
  intro acts
  induction acts with
  | nil => intro i procs out _ a ha; simp at ha
  | cons b rest ih =>
    intro i procs out h a ha
    rw [GenerateSQLLoop] at h
    cases hq : generateStringFromFileTemplate env (getTemplateFileFor env settings b)
        { TableName := table.TableName, Columns := filterColumnByAction b table.Columns } with
    | none => simp [hq] at h
    | some query =>
      simp only [hq] at h
      cases hp : generateStringFromFileTemplate env
          (getParameterSectionTemplateFile env settings option.SQLServer)
          (if b = UPDATE then table
            else { TableName := table.TableName,
                   Columns := filterColumnByAction b table.Columns }) with
      | none => simp [hp] at h
      | some ps =>
        simp only [hp] at h
        rcases List.mem_cons.mp ha with rfl | hmem
        · exact ⟨by simp [queryModel, hq], by simp [sectionModel, queryModel, hp]⟩
        · exact ih _ _ _ h a hmem

/-- The run of `GenerateSQL` returns exactly when every requested action renders. -/
theorem GenerateSQL_isSome_iff (env : Env) (settings : TemplateSettings) (table : Table)
    (option : GenerateOption) :
    (GenerateSQL env settings table option).isSome = true
      ↔ ∀ a ∈ option.Actions, Renders env settings table option a := by
  constructor
  · intro h
    obtain ⟨out, hout⟩ := Option.isSome_iff_exists.mp h
    exact GenerateSQLLoop_renders env settings table option _ _ _ _ hout
  · intro hr
    obtain ⟨out, hout, _⟩ := GenerateSQLLoop_spec env settings table option option.Actions 0
      (List.replicate option.Actions.length ({} : StoreProcedureStructure)) hr (by simp)
    simp [GenerateSQL, hout]

/-- The structure at every index of the result of `GenerateSQL`, when every requested
action renders. -/
theorem GenerateSQL_spec (env : Env) (settings : TemplateSettings) (table : Table)
    (option : GenerateOption)
    (hr : ∀ a ∈ option.Actions, Renders env settings table option a) :
    ∃ procs : List StoreProcedureStructure, GenerateSQL env settings table option = some procs
      ∧ procs.length = option.Actions.length
      ∧ (∀ (i : Nat) (a : Int), option.Actions[i]? = some a → ∃ query ps,
          generateStringFromFileTemplate env (getTemplateFileFor env settings a)
            (queryModel table a) = some query
          ∧ generateStringFromFileTemplate env
            (getParameterSectionTemplateFile env settings option.SQLServer)
            (sectionModel table a) = some ps
          ∧ procs[i]? = some
              { Action := a, ParameterSection := ps, Query := query,
                WhereCondition :=
                  if a = INSERT then ""
                  else generateWhereCondition option (sectionModel table a) }) := by
  obtain ⟨out, hout, hl, _, hact⟩ := GenerateSQLLoop_spec env settings table option
    option.Actions 0 (List.replicate option.Actions.length ({} : StoreProcedureStructure)) hr (by simp)
  refine ⟨out, hout, by simpa using hl, ?_⟩
  intro i a ha
  obtain ⟨query, ps, h1, h2, h3⟩ := hact i a ha
  exact ⟨query, ps, h1, h2, by simpa using h3⟩

theorem filter_identifier_idem (cols : List Column) :
    (cols.filter (fun c => c.IsIdentifier)).filter (fun c => c.IsIdentifier)
      = cols.filter (fun c => c.IsIdentifier) := by
  simp [List.filter_filter]

/-- The WHERE condition of the table reduced to its identifier columns is the WHERE
condition of the table. -/
theorem generateWhereCondition_sectionModel (option : GenerateOption) (table : Table)
    (a : Int) (h : a ≠ INSERT) :
    generateWhereCondition option (sectionModel table a)
      = generateWhereCondition option table := by
  by_cases hu : a = UPDATE
  · simp [sectionModel, hu]
  · by_cases hd : a = DELETE
    · rw [generateWhereCondition_eq, generateWhereCondition_eq]
      simp [sectionModel, queryModel, hd, DELETE, UPDATE, INSERT, filterColumnByAction,
        filterColumns_eq, List.filter_filter]
    · rw [generateWhereCondition_eq, generateWhereCondition_eq]
      simp [sectionModel, queryModel, hu, hd, h, filterColumnByAction]

/-! ## Lemmas on the schema reader -/

theorem GetTableDescriptionLoop_eq (provider : String → String) (rows : List Row)
    (result : List Column) :
    GetTableDescriptionLoop provider rows result
      = result ++ rows.map (fun row =>
          { ColumnName := row.name,
            ColumnType :=
              match row.maxLength with
              | some maxLength =>
                  if maxLength = -1 then row.typeName ++ "(max)"
                  else row.typeName ++ "(" ++ FormatInt maxLength ++ ")"
              | none => row.typeName,
            IsIdentifier := row.isPrimary,
            ParameterName := provider row.name }) := by
  induction rows generalizing result with
  | nil => simp [GetTableDescriptionLoop]
  | cons row rest ih => simp [GetTableDescriptionLoop, ih]

/-! ## Lemmas on the decimal rendering -/

theorem digitChar_eq_ofNat (d : Nat) (h : d < 10) : Nat.digitChar d = Char.ofNat (48 + d) := by
  interval_cases d <;> rfl

theorem toDigitsCore_eq_digits (fuel : Nat) :
    ∀ (n : Nat) (ds : List Char), n < fuel → 0 < n →
      Nat.toDigitsCore 10 fuel n ds
        = (Nat.digits 10 n).reverse.map (fun d => Char.ofNat (48 + d)) ++ ds := by
  induction fuel with
  | zero => intro n ds h; omega
  | succ fuel ih =>
    intro n ds hlt hpos
    have hmod : n % 10 < 10 := Nat.mod_lt n (by decide)
    rw [Nat.toDigitsCore, Nat.digits_def' (by decide) hpos, digitChar_eq_ofNat _ hmod]
    by_cases hz : n / 10 = 0
    · simp [hz]
    · have hq : n / 10 < fuel := by omega
      simp only [hz, if_false]
      rw [ih (n / 10) _ hq (Nat.pos_of_ne_zero hz)]
      simp

theorem Nat_repr_eq_digits (n : Nat) :
    Nat.repr n = String.mk
      (if n = 0 then ['0'] else (Nat.digits 10 n).reverse.map (fun d => Char.ofNat (48 + d))) := by
  by_cases h : n = 0
  · subst h; rfl
  · simp only [h, if_false, Nat.repr, Nat.toDigits, List.asString]
    rw [toDigitsCore_eq_digits (n + 1) n [] (by omega) (Nat.pos_of_ne_zero h)]
    simp

/-- The model of `strconv.FormatInt(i, 10)` writes a minus sign for a negative number and
then the base-10 digits of the absolute value, most significant first, each as the
character with code 48 plus the digit; zero is the single character `0`. -/
theorem FormatInt_eq_digits (l : Int) :
    FormatInt l = (if l < 0 then "-" else "") ++ String.mk
      (if l = 0 then ['0']
        else (Nat.digits 10 l.natAbs).reverse.map (fun d => Char.ofNat (48 + d))) := by
  rw [FormatInt, Nat_repr_eq_digits]
  by_cases hneg : l < 0
  · simp [hneg, Int.natAbs_eq_zero]
  · simp [hneg, Int.natAbs_eq_zero]

/-! ## Claims on the column filter and the assembler -/

/-- C1: for INSERT and for UPDATE the filter returns exactly the columns whose
`IsIdentifier` flag is false, as a sublist of the input in the input's order; a non-PK
column followed by a PK column gives a result of length 1. -/
theorem filterColumnByAction_insert_update (cols : List Column) :
    filterColumnByAction INSERT cols = cols.filter (fun c => c.IsIdentifier = false)
    ∧ filterColumnByAction UPDATE cols = cols.filter (fun c => c.IsIdentifier = false)
    ∧ List.Sublist (filterColumnByAction INSERT cols) cols
    ∧ (∀ c, c ∈ filterColumnByAction INSERT cols ↔ c ∈ cols ∧ c.IsIdentifier = false)
    ∧ (∀ a b : Column, a.IsIdentifier = false → b.IsIdentifier = true →
        (filterColumnByAction INSERT [a, b]).length = 1
        ∧ (filterColumnByAction UPDATE [a, b]).length = 1) := by
  have hf : (fun c : Column => !c.IsIdentifier) = fun c => decide (c.IsIdentifier = false) := by
    funext c; cases c.IsIdentifier <;> rfl
  have hi : filterColumnByAction INSERT cols = cols.filter (fun c => c.IsIdentifier = false) := by
    simp [filterColumnByAction, filterColumns_eq, hf]
  have hu : filterColumnByAction UPDATE cols = cols.filter (fun c => c.IsIdentifier = false) := by
    simp [filterColumnByAction, filterColumns_eq, hf]
  refine ⟨hi, hu, ?_, ?_, ?_⟩
  · rw [hi]; exact List.filter_sublist cols
  · intro c; rw [hi]; simp [List.mem_filter]
  · intro a b ha hb
    simp [filterColumnByAction, filterColumns_eq, List.filter, ha, hb]

/-- C2: for DELETE the filter returns exactly the columns whose `IsIdentifier` flag is
true, as a sublist of the input in the input's order. -/
theorem filterColumnByAction_delete (cols : List Column) :
    filterColumnByAction DELETE cols = cols.filter (fun c => c.IsIdentifier = true)
    ∧ List.Sublist (filterColumnByAction DELETE cols) cols
    ∧ (∀ c, c ∈ filterColumnByAction DELETE cols ↔ c ∈ cols ∧ c.IsIdentifier = true) := by
  have hd : filterColumnByAction DELETE cols = cols.filter (fun c => c.IsIdentifier = true) := by
    simp [filterColumnByAction, filterColumns_eq, DELETE, UPDATE, INSERT]
  refine ⟨hd, ?_, ?_⟩
  · rw [hd]; exact List.filter_sublist cols
  · intro c; rw [hd]; simp [List.mem_filter]

/-- C3: for an action code that is none of INSERT, UPDATE, DELETE (SELECT, or an integer
outside the enumeration) the filter returns the column list unchanged. -/
theorem filterColumnByAction_other (action : Int) (cols : List Column)
    (hi : action ≠ INSERT) (hu : action ≠ UPDATE) (hd : action ≠ DELETE) :
    filterColumnByAction action cols = cols := by
  simp [filterColumnByAction, hi, hu, hd]

/-- C4: for INSERT the assembled structure has the query `q` and an empty
WhereCondition, whatever `w` is. -/
theorem CreateStoreProcedureForAction_insert (q w : String) :
    (CreateStoreProcedureForAction INSERT q w).WhereCondition = ""
    ∧ (CreateStoreProcedureForAction INSERT q w).Query = q := by
  simp [CreateStoreProcedureForAction]

/-- C5: for every action other than INSERT the assembled structure carries the query `q`
and the WHERE text `w` unchanged. -/
theorem CreateStoreProcedureForAction_not_insert (action : Int) (q w : String)
    (h : action ≠ INSERT) :
    (CreateStoreProcedureForAction action q w).Query = q
    ∧ (CreateStoreProcedureForAction action q w).WhereCondition = w := by
  simp [CreateStoreProcedureForAction, h]

/-- C3, evaluated: SELECT and the integer 7 leave the columns of `users` unchanged. -/
theorem filterColumnByAction_other_witness :
    (SELECT ≠ INSERT ∧ SELECT ≠ UPDATE ∧ SELECT ≠ DELETE)
    ∧ filterColumnByAction SELECT usersTable.Columns = usersTable.Columns
    ∧ filterColumnByAction 7 usersTable.Columns = usersTable.Columns :=
  ⟨⟨by decide, by decide, by decide⟩,
    filterColumnByAction_other SELECT usersTable.Columns (by decide) (by decide) (by decide),
    filterColumnByAction_other 7 usersTable.Columns (by decide) (by decide) (by decide)⟩

/-- C5, evaluated: DELETE keeps the query and the WHERE text of the test. -/
theorem CreateStoreProcedureForAction_not_insert_witness :
    DELETE ≠ INSERT
    ∧ (CreateStoreProcedureForAction DELETE "select * from" "where id = @id").Query
        = "select * from"
    ∧ (CreateStoreProcedureForAction DELETE "select * from" "where id = @id").WhereCondition
        = "where id = @id" :=
  ⟨by decide,
    CreateStoreProcedureForAction_not_insert DELETE "select * from" "where id = @id"
      (by decide)⟩

/-! ## Claims on the WHERE clause and the schema reader -/

/-- C6: `generateWhereCondition` returns the empty string for a table without an
identifier column; otherwise it returns `WHERE (`, the clauses
`(ColumnName = ParameterName OR ParameterName IS NULL)` of the identifier columns in table
order joined by ` AND `, and `)`.  When the only identifier column is `id` with the
parameter `@id`, the result is `WHERE ((id = @id OR @id IS NULL))`. -/
theorem generateWhereCondition_spec (option : GenerateOption) (table : Table) :
    ((∀ c ∈ table.Columns, c.IsIdentifier = false) → generateWhereCondition option table = "")
    ∧ ((∃ c ∈ table.Columns, c.IsIdentifier = true) →
        generateWhereCondition option table
          = "WHERE (" ++ " AND ".intercalate
              ((table.Columns.filter (fun c => c.IsIdentifier)).map
                (fun c => "(" ++ c.ColumnName ++ " = " ++ c.ParameterName ++ " OR "
                  ++ c.ParameterName ++ " IS NULL)")) ++ ")")
    ∧ (∀ c : Column, c.ColumnName = "id" → c.ParameterName = "@id" →
        table.Columns.filter (fun c => c.IsIdentifier) = [c] →
        generateWhereCondition option table = "WHERE ((id = @id OR @id IS NULL))") := by
  have hfun : (fun c : Column => "(" ++ c.ColumnName ++ " = " ++ c.ParameterName ++ " OR "
      ++ c.ParameterName ++ " IS NULL)") = whereClause := rfl
  refine ⟨?_, ?_, ?_⟩
  · intro h
    have hnil : table.Columns.filter (fun c => c.IsIdentifier) = [] := by
      rw [List.filter_eq_nil_iff]
      intro c hc
      simp [h c hc]
    rw [generateWhereCondition_eq, if_pos hnil]
  · rintro ⟨c, hc, hid⟩
    have hne : table.Columns.filter (fun c => c.IsIdentifier) ≠ [] := by
      intro hnil
      rw [List.filter_eq_nil_iff] at hnil
      exact hnil c hc hid
    rw [generateWhereCondition_eq, if_neg hne, hfun]
  · intro c hn hp hc
    rw [generateWhereCondition_eq, hc]
    simp only [List.cons_ne_nil, if_false, List.map_cons, List.map_nil, intercalate_singleton,
      whereClause, hn, hp]
    decide

/-- C6, evaluated on the table `users`, whose only identifier column is `id`. -/
theorem generateWhereCondition_spec_witness :
    (∃ c ∈ usersTable.Columns, c.IsIdentifier = true)
    ∧ generateWhereCondition (optionFor [SELECT]) usersTable
        = "WHERE ((id = @id OR @id IS NULL))" :=
  ⟨⟨⟨"id", "int", true, "@id"⟩, by decide, rfl⟩,
    (generateWhereCondition_spec (optionFor [SELECT]) usersTable).2.2
      ⟨"id", "int", true, "@id"⟩ rfl rfl (by decide)⟩

/-- C7: the column `GetTableDescription` builds from the i-th row has as ColumnType the
type name unchanged when the row has no length, the type name followed by `(max)` when the
length is -1, and for every other length the type name followed by the decimal rendering
of the length in parentheses: a minus sign when the length is negative, then the base-10
digits of its absolute value, most significant first, as the characters `0` to `9` (code
48 plus the digit).  The lengths 50, 255, 0 and -2 give the suffixes `(50)`, `(255)`,
`(0)` and `(-2)`. -/
theorem GetTableDescription_columnType (rows : List Row) (table : String)
    (provider : String → String) (i : Nat) (row : Row) (h : rows[i]? = some row) :
    ∃ col, (GetTableDescription rows table provider).Columns[i]? = some col
      ∧ (row.maxLength = none → col.ColumnType = row.typeName)
      ∧ (row.maxLength = some (-1) → col.ColumnType = row.typeName ++ "(max)")
      ∧ (∀ l : Int, row.maxLength = some l → l ≠ -1 →
          col.ColumnType = row.typeName ++ "(" ++ FormatInt l ++ ")"
          ∧ col.ColumnType = row.typeName ++ "("
              ++ ((if l < 0 then "-" else "") ++ String.mk
                  (if l = 0 then ['0']
                    else (Nat.digits 10 l.natAbs).reverse.map (fun d => Char.ofNat (48 + d))))
              ++ ")")
      ∧ (row.maxLength = some 50 → col.ColumnType = row.typeName ++ "(50)")
      ∧ (row.maxLength = some 255 → col.ColumnType = row.typeName ++ "(255)")
      ∧ (row.maxLength = some 0 → col.ColumnType = row.typeName ++ "(0)")
      ∧ (row.maxLength = some (-2) → col.ColumnType = row.typeName ++ "(-2)") := by
  simp only [GetTableDescription, GetTableDescriptionLoop_eq, List.nil_append,
    List.getElem?_map, h, Option.map_some']
  refine ⟨_, rfl, ?_, ?_, ?_, ?_, ?_, ?_, ?_⟩
  · intro hm
    simp [hm]
  · intro hm
    simp [hm]
  · intro l hm hl
    refine ⟨by simp [hm, hl], ?_⟩
    rw [← FormatInt_eq_digits]
    simp [hm, hl]
  · intro hm
    have h50 : "(" ++ (FormatInt 50 ++ ")") = "(50)" := by decide
    simp [hm, String.append_assoc, h50]
  · intro hm
    have h255 : "(" ++ (FormatInt 255 ++ ")") = "(255)" := by decide
    simp [hm, String.append_assoc, h255]
  · intro hm
    have h0 : "(" ++ (FormatInt 0 ++ ")") = "(0)" := by decide
    simp [hm, String.append_assoc, h0]
  · intro hm
    have h2 : "(" ++ (FormatInt (-2) ++ ")") = "(-2)" := by decide
    simp [hm, String.append_assoc, h2]

/-- C7, evaluated on the row of a `varchar` column of length 50. -/
theorem GetTableDescription_columnType_witness :
    [varcharRow][0]? = some varcharRow
    ∧ ∃ col, (GetTableDescription [varcharRow] "users" (fun name => "@" ++ name)).Columns[0]?
          = some col
      ∧ (varcharRow.maxLength = none → col.ColumnType = varcharRow.typeName)
      ∧ (varcharRow.maxLength = some (-1) → col.ColumnType = varcharRow.typeName ++ "(max)")
      ∧ (∀ l : Int, varcharRow.maxLength = some l → l ≠ -1 →
          col.ColumnType = varcharRow.typeName ++ "(" ++ FormatInt l ++ ")"
          ∧ col.ColumnType = varcharRow.typeName ++ "("
              ++ ((if l < 0 then "-" else "") ++ String.mk
                  (if l = 0 then ['0']
                    else (Nat.digits 10 l.natAbs).reverse.map (fun d => Char.ofNat (48 + d))))
              ++ ")")
      ∧ (varcharRow.maxLength = some 50 → col.ColumnType = varcharRow.typeName ++ "(50)")
      ∧ (varcharRow.maxLength = some 255 → col.ColumnType = varcharRow.typeName ++ "(255)")
      ∧ (varcharRow.maxLength = some 0 → col.ColumnType = varcharRow.typeName ++ "(0)")
      ∧ (varcharRow.maxLength = some (-2) → col.ColumnType = varcharRow.typeName ++ "(-2)") :=
  ⟨rfl, GetTableDescription_columnType [varcharRow] "users" (fun name => "@" ++ name) 0
    varcharRow rfl⟩

/-! ## Claims on GenerateSQL -/

/-- C8, as the claim states it, fails: for UPDATE on the table `users` the query body is
rendered from the column `name` alone, while the full table renders `id,name,`. -/
theorem GenerateSQL_update_query_not_full_table :
    GenerateSQL listingEnv mainSettings usersTable (optionFor [UPDATE])
      = some [{ Action := UPDATE, ParameterSection := "id,name,", Query := "name,",
                WhereCondition := "WHERE ((id = @id OR @id IS NULL))" }]
    ∧ generateStringFromFileTemplate listingEnv
        (getTemplateFileFor listingEnv mainSettings UPDATE) usersTable = some "id,name,"
    ∧ generateStringFromFileTemplate listingEnv
        (getTemplateFileFor listingEnv mainSettings UPDATE)
        { TableName := usersTable.TableName,
          Columns := filterColumnByAction UPDATE usersTable.Columns } = some "name," := by
  decide

/-- C8, amended: when every requested action renders, `GenerateSQL` returns, and the query
body of every action, UPDATE included, is rendered from the table whose columns are
`filterColumnByAction action table.Columns` (for UPDATE the columns that are not
identifiers); the full table is what the parameter section of UPDATE is rendered from and
what the WHERE condition of UPDATE is built from (the clauses of the identifier columns of
the full table, or the empty string when it has none). -/
theorem GenerateSQL_query_model (env : Env) (settings : TemplateSettings) (table : Table)
    (option : GenerateOption)
    (hr : ∀ a ∈ option.Actions, Renders env settings table option a) :
    ∃ procs : List StoreProcedureStructure, GenerateSQL env settings table option = some procs
      ∧ ∀ (i : Nat) (action : Int), option.Actions[i]? = some action →
        ∃ sp : StoreProcedureStructure, procs[i]? = some sp
          ∧ some sp.Query
              = generateStringFromFileTemplate env (getTemplateFileFor env settings action)
                  { TableName := table.TableName,
                    Columns := filterColumnByAction action table.Columns }
          ∧ (action = UPDATE →
              some sp.Query
                = generateStringFromFileTemplate env (getTemplateFileFor env settings UPDATE)
                    { TableName := table.TableName,
                      Columns := table.Columns.filter (fun c => c.IsIdentifier = false) }
              ∧ some sp.ParameterSection
                = generateStringFromFileTemplate env
                    (getParameterSectionTemplateFile env settings option.SQLServer) table
              ∧ sp.WhereCondition = generateWhereCondition option table
              ∧ sp.WhereCondition
                = if table.Columns.filter (fun c => c.IsIdentifier) = [] then ""
                  else "WHERE (" ++ " AND ".intercalate
                    ((table.Columns.filter (fun c => c.IsIdentifier)).map
                      (fun c => "(" ++ c.ColumnName ++ " = " ++ c.ParameterName ++ " OR "
                        ++ c.ParameterName ++ " IS NULL)")) ++ ")") := by
  obtain ⟨procs, hp, _, hact⟩ := GenerateSQL_spec env settings table option hr
  refine ⟨procs, hp, ?_⟩
  intro i action ha
  obtain ⟨query, ps, h1, h2, h3⟩ := hact i action ha
  refine ⟨_, h3, ?_, ?_⟩
  · exact h1.symm
  · intro hu
    subst hu
    have hf : (fun c : Column => !c.IsIdentifier) = fun c => decide (c.IsIdentifier = false) := by
      funext c; cases c.IsIdentifier <;> rfl
    have hni : UPDATE ≠ INSERT := by decide
    have hw : (if UPDATE = INSERT then ""
        else generateWhereCondition option (sectionModel table UPDATE))
        = generateWhereCondition option table := by
      rw [if_neg hni]
      exact generateWhereCondition_sectionModel option table UPDATE hni
    refine ⟨?_, ?_, hw, ?_⟩
    · rw [← h1]
      simp [queryModel, filterColumnByAction, filterColumns_eq, hf]
    · rw [← h2]
      simp [sectionModel]
    · show (if UPDATE = INSERT then ""
        else generateWhereCondition option (sectionModel table UPDATE)) = _
      rw [hw, generateWhereCondition_eq]
      rfl

/-- C8 amended, evaluated: UPDATE on `users` in the listing world. -/
theorem GenerateSQL_query_model_witness :
    (∀ a ∈ (optionFor [UPDATE]).Actions,
        Renders listingEnv mainSettings usersTable (optionFor [UPDATE]) a)
    ∧ ∃ procs : List StoreProcedureStructure,
        GenerateSQL listingEnv mainSettings usersTable (optionFor [UPDATE]) = some procs
      ∧ ∀ (i : Nat) (action : Int), (optionFor [UPDATE]).Actions[i]? = some action →
        ∃ sp : StoreProcedureStructure, procs[i]? = some sp
          ∧ some sp.Query
              = generateStringFromFileTemplate listingEnv
                  (getTemplateFileFor listingEnv mainSettings action)
                  { TableName := usersTable.TableName,
                    Columns := filterColumnByAction action usersTable.Columns }
          ∧ (action = UPDATE →
              some sp.Query
                = generateStringFromFileTemplate listingEnv
                    (getTemplateFileFor listingEnv mainSettings UPDATE)
                    { TableName := usersTable.TableName,
                      Columns := usersTable.Columns.filter (fun c => c.IsIdentifier = false) }
              ∧ some sp.ParameterSection
                = generateStringFromFileTemplate listingEnv
                    (getParameterSectionTemplateFile listingEnv mainSettings
                      (optionFor [UPDATE]).SQLServer) usersTable
              ∧ sp.WhereCondition = generateWhereCondition (optionFor [UPDATE]) usersTable
              ∧ sp.WhereCondition
                = if usersTable.Columns.filter (fun c => c.IsIdentifier) = [] then ""
                  else "WHERE (" ++ " AND ".intercalate
                    ((usersTable.Columns.filter (fun c => c.IsIdentifier)).map
                      (fun c => "(" ++ c.ColumnName ++ " = " ++ c.ParameterName ++ " OR "
                        ++ c.ParameterName ++ " IS NULL)")) ++ ")") :=
  ⟨fun _ _ => ⟨rfl, rfl⟩,
    GenerateSQL_query_model listingEnv mainSettings usersTable (optionFor [UPDATE])
      (fun _ _ => ⟨rfl, rfl⟩)⟩

/-- C9: when every requested action renders, `GenerateSQL` returns, and the WhereCondition
of the structure of each requested action is `generateWhereCondition` of the full table for
SELECT, UPDATE and DELETE, and the empty string for INSERT. -/
theorem GenerateSQL_whereCondition (env : Env) (settings : TemplateSettings) (table : Table)
    (option : GenerateOption)
    (hr : ∀ a ∈ option.Actions, Renders env settings table option a) :
    ∃ procs : List StoreProcedureStructure, GenerateSQL env settings table option = some procs
      ∧ ∀ (i : Nat) (action : Int), option.Actions[i]? = some action →
        ∃ sp : StoreProcedureStructure, procs[i]? = some sp
          ∧ (action = SELECT ∨ action = UPDATE ∨ action = DELETE →
              sp.WhereCondition = generateWhereCondition option table)
          ∧ (action = INSERT → sp.WhereCondition = "") := by
  obtain ⟨procs, hp, _, hact⟩ := GenerateSQL_spec env settings table option hr
  refine ⟨procs, hp, ?_⟩
  intro i action ha
  obtain ⟨query, ps, _, _, h3⟩ := hact i action ha
  refine ⟨_, h3, ?_, ?_⟩
  · intro hsel
    have hni : action ≠ INSERT := by
      rcases hsel with h | h | h <;> rw [h] <;> decide
    simp only [hni, if_false]
    exact generateWhereCondition_sectionModel option table action hni
  · intro hins
    simp [hins]

/-- C9, evaluated: the four actions on `users` in the listing world. -/
theorem GenerateSQL_whereCondition_witness :
    (∀ a ∈ (optionFor [SELECT, INSERT, UPDATE, DELETE]).Actions,
        Renders listingEnv mainSettings usersTable (optionFor [SELECT, INSERT, UPDATE, DELETE]) a)
    ∧ ∃ procs : List StoreProcedureStructure, GenerateSQL listingEnv mainSettings usersTable
          (optionFor [SELECT, INSERT, UPDATE, DELETE]) = some procs
      ∧ ∀ (i : Nat) (action : Int), (optionFor [SELECT, INSERT, UPDATE, DELETE]).Actions[i]? = some action →
        ∃ sp : StoreProcedureStructure, procs[i]? = some sp
          ∧ (action = SELECT ∨ action = UPDATE ∨ action = DELETE →
              sp.WhereCondition
                = generateWhereCondition (optionFor [SELECT, INSERT, UPDATE, DELETE]) usersTable)
          ∧ (action = INSERT → sp.WhereCondition = "") :=
  ⟨fun _ _ => ⟨rfl, rfl⟩,
    GenerateSQL_whereCondition listingEnv mainSettings usersTable
      (optionFor [SELECT, INSERT, UPDATE, DELETE]) (fun _ _ => ⟨rfl, rfl⟩)⟩

/-- C10: when every requested action renders, `GenerateSQL` returns a list with as many
structures as `option.Actions` has entries, and the Action field of the i-th structure is
the i-th requested action; `CreateStoreProcedureForAction` itself leaves the Action field
at zero. -/
theorem GenerateSQL_length_actions (env : Env) (settings : TemplateSettings) (table : Table)
    (option : GenerateOption)
    (hr : ∀ a ∈ option.Actions, Renders env settings table option a) :
    ∃ procs : List StoreProcedureStructure, GenerateSQL env settings table option = some procs
      ∧ procs.length = option.Actions.length
      ∧ (∀ (i : Nat) (action : Int), option.Actions[i]? = some action →
          ∃ sp : StoreProcedureStructure, procs[i]? = some sp ∧ sp.Action = action)
      ∧ procs.map (fun sp => sp.Action) = option.Actions
      ∧ ∀ (action : Int) (q w : String), (CreateStoreProcedureForAction action q w).Action = 0 := by
  obtain ⟨procs, hp, hl, hact⟩ := GenerateSQL_spec env settings table option hr
  have hidx : ∀ (i : Nat) (action : Int), option.Actions[i]? = some action →
      ∃ sp : StoreProcedureStructure, procs[i]? = some sp ∧ sp.Action = action := by
    intro i action ha
    obtain ⟨query, ps, _, _, h3⟩ := hact i action ha
    exact ⟨_, h3, rfl⟩
  refine ⟨procs, hp, hl, hidx, ?_, ?_⟩
  · apply List.ext_getElem?
    intro i
    rw [List.getElem?_map]
    cases ha : option.Actions[i]? with
    | none =>
      have hge : procs.length ≤ i := by
        rw [hl]
        exact List.getElem?_eq_none_iff.mp ha
      rw [List.getElem?_eq_none_iff.mpr hge]
      rfl
    | some action =>
      obtain ⟨sp, hsp, hsa⟩ := hidx i action ha
      rw [hsp]
      simp [hsa]
  · intro action q w
    by_cases h : action = INSERT <;> simp [CreateStoreProcedureForAction, h]

/-- C10, evaluated: SELECT and INSERT on `users` in the listing world. -/
theorem GenerateSQL_length_actions_witness :
    (∀ a ∈ (optionFor [SELECT, INSERT]).Actions,
        Renders listingEnv mainSettings usersTable (optionFor [SELECT, INSERT]) a)
    ∧ ∃ procs : List StoreProcedureStructure, GenerateSQL listingEnv mainSettings usersTable (optionFor [SELECT, INSERT])
          = some procs
      ∧ procs.length = (optionFor [SELECT, INSERT]).Actions.length
      ∧ (∀ (i : Nat) (action : Int), (optionFor [SELECT, INSERT]).Actions[i]? = some action →
          ∃ sp : StoreProcedureStructure, procs[i]? = some sp ∧ sp.Action = action)
      ∧ procs.map (fun sp => sp.Action) = (optionFor [SELECT, INSERT]).Actions
      ∧ ∀ (action : Int) (q w : String), (CreateStoreProcedureForAction action q w).Action = 0 :=
  ⟨fun _ _ => ⟨rfl, rfl⟩,
    GenerateSQL_length_actions listingEnv mainSettings usersTable (optionFor [SELECT, INSERT])
      (fun _ _ => ⟨rfl, rfl⟩)⟩

end SqlGenerator
